import Mathlib

/- Verification development for the Lulu book upload automation
   (lulu_automation.py).  The definitions below are a shallow embedding
   of the poller, the upload state machine, the retry loop, the spine
   width table and the cover geometry engine of that program.  Physical
   millimeter quantities are modelled as rationals; polling time is
   modelled as discrete cycles of the poll interval. -/

set_option maxHeartbeats 1000000

/- ===== Condition poller (wait_for_any, lines 135-167) =====

   A condition is a pair of a detector and a description label, as in the
   Python list of (selector, description) tuples; the detector is the
   observable truth of the selector at a given polling cycle, which is
   what check_for_selector samples from the page.  The loop runs
   timeout_ms // poll_interval_ms cycles; in each cycle it checks the
   conditions in declared order and returns the description of the first
   one that holds, sleeping poll_interval_ms after each full cycle. -/

def wait_go (conds : List ((Nat → Bool) × String)) : Nat → Nat → Option String
  | 0, _ => none
  | fuel + 1, cycle =>
    match conds.find? (fun c => c.1 cycle) with
    | some c => some c.2
    | none => wait_go conds fuel (cycle + 1)

def wait_for_any (conds : List ((Nat → Bool) × String))
    (poll_interval_ms timeout_ms : Nat) : Option String :=
  wait_go conds (timeout_ms / poll_interval_ms) 0

/-- Modelled elapsed time when wait_for_any returns none: it has slept
once per executed cycle, poll_interval_ms each time. -/
def elapsed_on_none (poll_interval_ms timeout_ms : Nat) : Nat :=
  (timeout_ms / poll_interval_ms) * poll_interval_ms

theorem wait_go_none (conds : List ((Nat → Bool) × String)) :
    ∀ fuel cycle, wait_go conds fuel cycle = none ↔
      ∀ j, cycle ≤ j → j < cycle + fuel → conds.find? (fun c => c.1 j) = none := by
  intro fuel
  induction fuel with
  | zero =>
    intro cycle
    constructor
    · intro _ j h1 h2
      exact absurd h2 (by omega)
    · intro _
      rfl
  | succ n ih =>
    intro cycle
    cases hf : conds.find? (fun c => c.1 cycle) with
    | some c =>
      constructor
      · intro h
        simp only [wait_go, hf] at h
        exact absurd h (by simp)
      · intro h
        have hc := h cycle (Nat.le_refl cycle) (by omega)
        rw [hf] at hc
        exact absurd hc (by simp)
    | none =>
      constructor
      · intro h j h1 h2
        simp only [wait_go, hf] at h
        rcases Nat.eq_or_lt_of_le h1 with he | hl
        · rw [← he]
          exact hf
        · exact (ih (cycle + 1)).mp h j hl (by omega)
      · intro h
        simp only [wait_go, hf]
        exact (ih (cycle + 1)).mpr (fun j h1 h2 => h j (by omega) (by omega))

theorem wait_go_found (conds : List ((Nat → Bool) × String)) :
    ∀ fuel cycle j c, cycle ≤ j → j < cycle + fuel →
      (∀ m, cycle ≤ m → m < j → conds.find? (fun x => x.1 m) = none) →
      conds.find? (fun x => x.1 j) = some c →
      wait_go conds fuel cycle = some c.2 := by
  intro fuel
  induction fuel with
  | zero =>
    intro cycle j c h1 h2 _ _
    exact absurd h2 (by omega)
  | succ n ih =>
    intro cycle j c h1 h2 hprev hfind
    rcases Nat.eq_or_lt_of_le h1 with he | hl
    · subst he
      simp only [wait_go, hfind]
    · have hcf : conds.find? (fun x => x.1 cycle) = none :=
        hprev cycle (Nat.le_refl cycle) hl
      simp only [wait_go, hcf]
      exact ih (cycle + 1) j c hl (by omega) (fun m hm1 hm2 => hprev m (by omega) hm2) hfind

theorem wait_go_label_mem (conds : List ((Nat → Bool) × String)) :
    ∀ fuel cycle d, wait_go conds fuel cycle = some d → ∃ c ∈ conds, c.2 = d := by
  intro fuel
  induction fuel with
  | zero =>
    intro cycle d h
    simp only [wait_go] at h
    exact absurd h (by simp)
  | succ n ih =>
    intro cycle d h
    cases hf : conds.find? (fun c => c.1 cycle) with
    | some c =>
      simp only [wait_go, hf, Option.some.injEq] at h
      exact ⟨c, List.mem_of_find?_eq_some hf, h⟩
    | none =>
      simp only [wait_go, hf] at h
      exact ih (cycle + 1) d h

theorem wait_for_any_label_mem (conds : List ((Nat → Bool) × String))
    (p t : Nat) (d : String) (h : wait_for_any conds p t = some d) :
    ∃ c ∈ conds, c.2 = d :=
  wait_go_label_mem conds (t / p) 0 d h

/-- Helper: if every condition declared before index k is false at a
cycle and the condition at index k is true there, the in-order scan
find? returns exactly the condition at index k. -/
theorem find_first_of_earlier_false {α : Type} (p : α → Bool) :
    ∀ (l : List α) (k : Nat) (hk : k < l.length),
      (∀ m (hm : m < k), p (l.get ⟨m, Nat.lt_trans hm hk⟩) = false) →
      p (l.get ⟨k, hk⟩) = true →
      l.find? p = some (l.get ⟨k, hk⟩) := by
  intro l
  induction l with
  | nil =>
    intro k hk
    exact absurd hk (by simp)
  | cons a tl ih =>
    intro k hk hmin htrue
    cases k with
    | zero =>
      simp only [List.get] at htrue
      simp [List.find?, htrue]
    | succ k =>
      have ha : p a = false := by
        have h0 := hmin 0 (Nat.succ_pos k)
        simpa using h0
      have htl : tl.find? p = some (tl.get ⟨k, by simpa using hk⟩) := by
        apply ih k (by simpa using hk)
        · intro m hm
          have hs := hmin (m + 1) (by omega)
          simpa using hs
        · simpa using htrue
      simp [List.find?, ha, htl]

/- ===== Spine width table (get_spine_width, lines 882-924) =====

   The Python function scans its table in order and returns the width of
   the first (min_pages, max_pages, width_mm) entry whose inclusive range
   contains page_count, or None when no entry matches.  The binding
   argument is accepted but not consulted, exactly as in the source. -/

def spine_table : List (Nat × Nat × Nat) :=
  [(2, 23, 0),
   (24, 84, 6),
   (85, 140, 13),
   (141, 168, 16),
   (169, 194, 17),
   (195, 222, 19),
   (223, 250, 21),
   (251, 278, 22),
   (279, 306, 24),
   (307, 334, 25),
   (335, 360, 27),
   (361, 388, 29),
   (389, 416, 30),
   (417, 444, 32),
   (445, 472, 33),
   (473, 500, 35),
   (501, 528, 37),
   (529, 556, 38),
   (557, 582, 40),
   (583, 610, 41),
   (611, 638, 43),
   (639, 666, 44),
   (667, 694, 46),
   (695, 722, 48),
   (723, 750, 49),
   (751, 778, 51),
   (779, 799, 52),
   (800, 800, 54)]

def get_spine_width (page_count : Nat) (binding : String) : Option Nat :=
  (spine_table.find?
      (fun e => decide (e.1 ≤ page_count) && decide (page_count ≤ e.2.1))).map
    (fun e => e.2.2)

/-- Binding families of the program (line 72). -/
def BINDINGS : List String :=
  ["Paperback Perfect Bound", "Paperback Coil Bound", "Paperback Saddle Stitch",
   "Hardcover Case Wrap", "Hardcover Linen Wrap"]

/- ===== Cover geometry engine (generate_cover_pdf, lines 948-974) =====

   Millimeter quantities are rationals.  The constants and the two
   branch formulas are transcribed from the source; any binding other
   than the two handled ones hits an assert False, modelled as none. -/

def wrap_mm : ℚ := 1905 / 100

def overhang_mm : ℚ := 3175 / 1000

def bleed_mm : ℚ := 3175 / 1000

def cover_dims (binding : String) (front_width_mm front_height_mm spine_width_mm : ℚ) :
    Option (ℚ × ℚ) :=
  if binding = "Hardcover Case Wrap" then
    let panel_width_mm := wrap_mm + front_width_mm
    some (panel_width_mm + spine_width_mm + panel_width_mm + 2 * overhang_mm,
          front_height_mm + 2 * wrap_mm + 2 * overhang_mm)
  else if binding = "Paperback Saddle Stitch" then
    some (bleed_mm + front_width_mm + spine_width_mm + front_width_mm + bleed_mm,
          bleed_mm + front_height_mm + bleed_mm)
  else
    none

/- ===== Cover renderer (generate_cover_pdf, lines 1013-1065) =====

   The draw calls, in source order: white background rectangle, title,
   subtitle only when the subtitle string is truthy (non-empty), author,
   and the rotated spine text only when spine_width_mm >= 6. -/

inductive CoverElement
  | background
  | titleText
  | subtitleText
  | authorText
  | spineText
deriving DecidableEq

def render_elements (subtitle : String) (spine_width_mm : ℚ) : List CoverElement :=
  [CoverElement.background, CoverElement.titleText]
    ++ (if subtitle ≠ "" then [CoverElement.subtitleText] else [])
    ++ [CoverElement.authorText]
    ++ (if 6 ≤ spine_width_mm then [CoverElement.spineText] else [])

/-- Cover generation pipeline of generate_cover_pdf: spine lookup
(assert on None), branch on binding for the sheet dimensions (assert
False on unknown bindings), then the draw calls.  The title, author and
output path do not influence the structure of the output and are
omitted; an assertion failure is modelled as none. -/
def generate_cover_pdf (subtitle : String) (front_width_mm front_height_mm : ℚ)
    (num_pages : Nat) (binding : String) : Option ((ℚ × ℚ) × List CoverElement) :=
  match get_spine_width num_pages binding with
  | none => none
  | some spine_width_mm =>
    match cover_dims binding front_width_mm front_height_mm (spine_width_mm : ℚ) with
    | none => none
    | some dims => some (dims, render_elements subtitle (spine_width_mm : ℚ))

/- ===== Upload/validation state machine (create_book_page2, lines 413-689) =====

   The page observations are modelled per polling phase as a function
   from selector and cycle to the truth of that selector at that cycle;
   the wait_for_any calls below carry exactly the selector lists, labels
   and timeouts of the source (the poll interval is the default 500 ms).
   The glue between the waits (radio clicks, price polling, AJAX
   logging, preview) does not influence the returned outcome and is not
   modelled.  Python return values map as: True = ok, False = failed,
   the string RETRY = retry; an assert False in a match arm = crashed. -/

abbrev PollEnv := String → Nat → Bool

def uploading_selector : String := "text=Your file is uploading"

def validating_selector : String := "text=Your file is validating"

def upload_button_selector : String := "[data-testid=\x27interior-file-upload-button\x27]"

def success_selector : String := "text=Your Book file was successfully uploaded!"

def error_selector : String := "[data-testid*=\x27file-upload-notification-error\x27]"

def cover_success_selector : String := "text=You successfully uploaded a cover file!"

def font_error_selector : String := "text=We found some fonts"

def phase1_conds (e : PollEnv) : List ((Nat → Bool) × String) :=
  [(e uploading_selector, "upload_started")]

def phase2_conds (e : PollEnv) : List ((Nat → Bool) × String) :=
  [(e validating_selector, "upload_validating"),
   (e upload_button_selector, "reset")]

def phase3_conds (e : PollEnv) : List ((Nat → Bool) × String) :=
  [(e success_selector, "success"),
   (e error_selector, "error"),
   (e upload_button_selector, "reset")]

def cover_conds (e : PollEnv) : List ((Nat → Bool) × String) :=
  [(e cover_success_selector, "success"),
   (e font_error_selector, "font_error")]

inductive Page2Result
  | ok
  | failed
  | retry
  | crashed
deriving DecidableEq

/-- Cover validation wait (lines 663-677): on success continue, on a
font error return False, and on an unclear timeout the code only prints
a warning and falls through to the preview and Review Book, ending in
True. -/
def page2_cover_phase (e4 : PollEnv) : Page2Result :=
  match wait_for_any (cover_conds e4) 500 120000 with
  | some s =>
    if s = "success" then Page2Result.ok
    else if s = "font_error" then Page2Result.failed
    else Page2Result.crashed
  | none => Page2Result.ok

/-- Terminal validation wait (lines 486-505): success proceeds to the
cover phase, error and an unclear timeout return False, reset returns
RETRY. -/
def page2_terminal_phase (e3 e4 : PollEnv) : Page2Result :=
  match wait_for_any (phase3_conds e3) 500 120000 with
  | some s =>
    if s = "success" then page2_cover_phase e4
    else if s = "error" then Page2Result.failed
    else if s = "reset" then Page2Result.retry
    else Page2Result.crashed
  | none => Page2Result.failed

/-- The whole of create_book_page2 after the upload is submitted: the
upload-start wait (lines 447-461, None returns False), the validation
wait (lines 465-482, reset returns RETRY, None only warns and falls
through), then the terminal and cover phases. -/
def create_book_page2 (e1 e2 e3 e4 : PollEnv) : Page2Result :=
  match wait_for_any (phase1_conds e1) 500 5000 with
  | some s =>
    if s = "upload_started" then
      match wait_for_any (phase2_conds e2) 500 5000 with
      | some s2 =>
        if s2 = "upload_validating" then page2_terminal_phase e3 e4
        else if s2 = "reset" then Page2Result.retry
        else Page2Result.crashed
      | none => page2_terminal_phase e3 e4
    else Page2Result.crashed
  | none => Page2Result.failed

/- ===== Caller retry loop (__main__, lines 1194-1227) =====

   One full attempt of automate_book_upload resolves to RETRY, a truthy
   True, a falsy False, or an exception; the main loop runs at most
   max_retries = 3 attempts, continuing only on RETRY, exiting 0 on a
   truthy result and exiting 1 on a falsy result or an exception. -/

inductive ProcResult
  | retry
  | ok
  | failed
  | raised
deriving DecidableEq

/-- Result propagation of process_pages_1_to_4 (lines 828-843): RETRY
is forwarded, a falsy result is False, otherwise the flow continues and
succeeds; an uncaught exception propagates to the caller. -/
def process_pages_1_to_4 (r : Page2Result) : ProcResult :=
  match r with
  | Page2Result.retry => ProcResult.retry
  | Page2Result.ok => ProcResult.ok
  | Page2Result.failed => ProcResult.failed
  | Page2Result.crashed => ProcResult.raised

/-- The for attempt in range(max_retries) loop, fuel being the number of
remaining iterations and used the number of attempts already executed.
Returns how many attempts ran and whether the process exited
successfully. -/
def main_retry_loop (results : Nat → ProcResult) : Nat → Nat → Nat × Bool
  | 0, used => (used, false)
  | fuel + 1, used =>
    match results used with
    | ProcResult.retry => main_retry_loop results fuel (used + 1)
    | ProcResult.ok => (used + 1, true)
    | ProcResult.failed => (used + 1, false)
    | ProcResult.raised => (used + 1, false)

def main_run (results : Nat → ProcResult) : Nat × Bool :=
  main_retry_loop results 3 0

theorem main_retry_loop_lb (r : Nat → ProcResult) :
    ∀ fuel used, used ≤ (main_retry_loop r fuel used).1 := by
  intro fuel
  induction fuel with
  | zero =>
    intro used
    exact Nat.le_refl used
  | succ n ih =>
    intro used
    cases h : r used with
    | retry =>
      simp only [main_retry_loop, h]
      exact Nat.le_trans (Nat.le_succ used) (ih (used + 1))
    | ok => simp [main_retry_loop, h]
    | failed => simp [main_retry_loop, h]
    | raised => simp [main_retry_loop, h]

theorem main_retry_loop_ub (r : Nat → ProcResult) :
    ∀ fuel used, (main_retry_loop r fuel used).1 ≤ used + fuel := by
  intro fuel
  induction fuel with
  | zero =>
    intro used
    exact Nat.le_refl used
  | succ n ih =>
    intro used
    cases h : r used with
    | retry =>
      simp only [main_retry_loop, h]
      have := ih (used + 1)
      omega
    | ok => simp only [main_retry_loop, h]; omega
    | failed => simp only [main_retry_loop, h]; omega
    | raised => simp only [main_retry_loop, h]; omega

theorem main_retry_loop_stop (r : Nat → ProcResult) (i : Nat)
    (hi : r i ≠ ProcResult.retry) :
    ∀ fuel used, used ≤ i → (main_retry_loop r fuel used).1 ≤ i + 1 := by
  intro fuel
  induction fuel with
  | zero =>
    intro used h
    simpa [main_retry_loop] using Nat.le_trans h (Nat.le_succ i)
  | succ n ih =>
    intro used h
    by_cases he : used = i
    · subst he
      cases hr : r used with
      | retry => exact absurd hr hi
      | ok => simp only [main_retry_loop, hr]; omega
      | failed => simp only [main_retry_loop, hr]; omega
      | raised => simp only [main_retry_loop, hr]; omega
    · have hlt : used < i := Nat.lt_of_le_of_ne h he
      cases hr : r used with
      | retry =>
        simp only [main_retry_loop, hr]
        exact ih (used + 1) (by omega)
      | ok => simp only [main_retry_loop, hr]; omega
      | failed => simp only [main_retry_loop, hr]; omega
      | raised => simp only [main_retry_loop, hr]; omega

theorem main_retry_loop_progress (r : Nat → ProcResult) (i : Nat) :
    ∀ fuel used, (∀ j, used ≤ j → j ≤ i → r j = ProcResult.retry) →
      i + 2 ≤ used + fuel → i + 2 ≤ (main_retry_loop r fuel used).1 := by
  intro fuel
  induction fuel with
  | zero =>
    intro used _ hle
    simpa [main_retry_loop] using hle
  | succ n ih =>
    intro used hall hle
    by_cases hui : used ≤ i
    · have hr : r used = ProcResult.retry := hall used (Nat.le_refl used) hui
      simp only [main_retry_loop, hr]
      exact ih (used + 1) (fun j h1 h2 => hall j (by omega) h2) (by omega)
    · cases hr : r used with
      | retry =>
        simp only [main_retry_loop, hr]
        have := main_retry_loop_lb r n (used + 1)
        omega
      | ok => simp only [main_retry_loop, hr]; omega
      | failed => simp only [main_retry_loop, hr]; omega
      | raised => simp only [main_retry_loop, hr]; omega

/- ===== Claims about the spine table and the geometry engine ===== -/

set_option maxRecDepth 4000

/-- C2: for every page count from 2 through 800 inclusive, exactly one
entry of the spine table contains it, the entries being ascending,
non-overlapping and contiguous, so the lookup returns exactly one spine
width; and for every page count outside 2..800 the lookup returns None
rather than defaulting to any width. -/
theorem spine_lookup_partition (binding : String) (n m : Nat)
    (hn1 : 2 ≤ n) (hn2 : n ≤ 800) (hm : m < 2 ∨ 800 < m) :
    spine_table.countP (fun e => decide (e.1 ≤ n) && decide (n ≤ e.2.1)) = 1
    ∧ (get_spine_width n binding).isSome = true
    ∧ (∀ i, i < 27 →
        (spine_table.getD i (0, 0, 0)).2.1 + 1 = (spine_table.getD (i + 1) (0, 0, 0)).1)
    ∧ (∀ e ∈ spine_table, e.1 ≤ e.2.1)
    ∧ get_spine_width m binding = none := by
  have key : ∀ x, x < 801 → 2 ≤ x →
      (spine_table.countP (fun e => decide (e.1 ≤ x) && decide (x ≤ e.2.1)) = 1
       ∧ (spine_table.find?
            (fun e => decide (e.1 ≤ x) && decide (x ≤ e.2.1))).isSome = true) := by
    decide
  have hmin : ∀ e ∈ spine_table, 2 ≤ e.1 := by decide
  have hmax : ∀ e ∈ spine_table, e.2.1 ≤ 800 := by decide
  obtain ⟨hcount, hsome⟩ := key n (by omega) hn1
  refine ⟨hcount, ?_, by decide, by decide, ?_⟩
  · rcases Option.isSome_iff_exists.mp hsome with ⟨e, he⟩
    unfold get_spine_width
    rw [he]
    rfl
  · have hfn : spine_table.find?
        (fun e => decide (e.1 ≤ m) && decide (m ≤ e.2.1)) = none := by
      rw [List.find?_eq_none]
      intro e he hmatch
      simp only [Bool.and_eq_true, decide_eq_true_eq] at hmatch
      have h1 := hmin e he
      have h2 := hmax e he
      omega
    unfold get_spine_width
    rw [hfn]
    rfl

theorem spine_lookup_partition_witness :
    spine_table.countP (fun e => decide (e.1 ≤ 100) && decide (100 ≤ e.2.1)) = 1
    ∧ (get_spine_width 100 ("Hardcover Case Wrap")).isSome = true
    ∧ (∀ i, i < 27 →
        (spine_table.getD i (0, 0, 0)).2.1 + 1 = (spine_table.getD (i + 1) (0, 0, 0)).1)
    ∧ (∀ e ∈ spine_table, e.1 ≤ e.2.1)
    ∧ get_spine_width 801 ("Hardcover Case Wrap") = none :=
  spine_lookup_partition ("Hardcover Case Wrap") 100 801 (by decide) (by decide)
    (Or.inr (by decide))

/-- C3: in the Hardcover Case Wrap branch the sheet dimensions satisfy
total width = 2 * (wrap + trimWidth) + spineWidth + 2 * overhang and
total height = trimHeight + 2 * wrap + 2 * overhang, with
wrap = 19.05 mm and overhang = 3.175 mm, for every trim size and spine
width. -/
theorem hardcover_dims_formula (w h s : ℚ) :
    cover_dims ("Hardcover Case Wrap") w h s
      = some (2 * (1905 / 100 + w) + s + 2 * (3175 / 1000),
              h + 2 * (1905 / 100) + 2 * (3175 / 1000)) := by
  unfold cover_dims
  rw [if_pos rfl]
  simp only [wrap_mm, overhang_mm, Option.some.injEq, Prod.mk.injEq]
  constructor
  · ring
  · ring

/-- C4 counterexample: at trim 152 x 229 mm and spine width 13 mm the
implemented hardcover formula yields total width 361.45 mm, not 406.5
mm; and the expansion 152 + 2*19.05 + 152 + 2*19.05 + 13 + 2*3.175
named by the claim equals 399.55, which the implementation does not
reproduce either and which is itself different from 406.5. -/
theorem hardcover_example_width_counterexample :
    (cover_dims ("Hardcover Case Wrap") 152 229 13).map Prod.fst = some (36145 / 100)
    ∧ (36145 / 100 : ℚ) ≠ 4065 / 10
    ∧ (152 + 2 * (1905 / 100) + 152 + 2 * (1905 / 100) + 13 + 2 * (3175 / 1000) : ℚ)
        = 39955 / 100
    ∧ (39955 / 100 : ℚ) ≠ 4065 / 10
    ∧ (36145 / 100 : ℚ) ≠ 39955 / 100 := by
  refine ⟨?_, by norm_num, by norm_num, by norm_num, by norm_num⟩
  unfold cover_dims
  rw [if_pos rfl]
  simp only [wrap_mm, overhang_mm, Option.map_some', Option.some.injEq]
  norm_num

/-- C4 (amended): for the hardcover worked example with trim size
152 x 229 mm and spine width 13 mm, wrap 19.05 mm and overhang
3.175 mm, the implemented formula yields total width
2 * (19.05 + 152) + 13 + 2 * 3.175 = 361.45 mm. -/
theorem hardcover_example_width :
    (cover_dims ("Hardcover Case Wrap") 152 229 13).map Prod.fst
      = some (2 * (1905 / 100 + 152) + 13 + 2 * (3175 / 1000))
    ∧ (2 * (1905 / 100 + 152) + 13 + 2 * (3175 / 1000) : ℚ) = 36145 / 100 := by
  constructor
  · unfold cover_dims
    rw [if_pos rfl]
    simp only [wrap_mm, overhang_mm, Option.map_some', Option.some.injEq]
    ring
  · norm_num

/-- C5: in the Paperback Saddle Stitch branch the sheet dimensions
satisfy total width = 2 * bleed + 2 * trimWidth + spineWidth and total
height = trimHeight + 2 * bleed with bleed = 3.175 mm, for every trim
size and spine width; in particular trim 140 x 216 mm with spine width
0 yields total width 286.35 mm. -/
theorem paperback_dims_formula (w h s : ℚ) :
    cover_dims ("Paperback Saddle Stitch") w h s
      = some (2 * (3175 / 1000) + 2 * w + s, h + 2 * (3175 / 1000))
    ∧ (cover_dims ("Paperback Saddle Stitch") 140 216 0).map Prod.fst
        = some (28635 / 100) := by
  constructor
  · unfold cover_dims
    rw [if_neg (by decide), if_pos rfl]
    simp only [bleed_mm, Option.some.injEq, Prod.mk.injEq]
    constructor
    · ring
    · ring
  · unfold cover_dims
    rw [if_neg (by decide), if_pos rfl]
    simp only [bleed_mm, Option.map_some', Option.some.injEq]
    norm_num

/-- C9: the renderer draws the rotated spine text exactly when the
spine width is at least 6 mm, omitting it entirely below the threshold,
and in both branches the remaining draw calls (background, title,
author) are performed. -/
theorem spine_text_iff (subtitle : String) (s : ℚ) :
    (CoverElement.spineText ∈ render_elements subtitle s ↔ 6 ≤ s)
    ∧ CoverElement.background ∈ render_elements subtitle s
    ∧ CoverElement.titleText ∈ render_elements subtitle s
    ∧ CoverElement.authorText ∈ render_elements subtitle s := by
  unfold render_elements
  by_cases h6 : (6 : ℚ) ≤ s <;> by_cases hsub : subtitle = "" <;> simp [h6, hsub]

/-- C10: cover geometry is computed only for the bindings Hardcover
Case Wrap and Paperback Saddle Stitch; for every other binding family
listed in BINDINGS, generate_cover_pdf fails on an assertion before
producing any output. -/
theorem cover_only_two_bindings (b : String) (hb : b ∈ BINDINGS)
    (h1 : b ≠ "Hardcover Case Wrap") (h2 : b ≠ "Paperback Saddle Stitch")
    (subtitle : String) (w h : ℚ) (n : Nat) :
    generate_cover_pdf subtitle w h n b = none
    ∧ generate_cover_pdf subtitle w h 100 ("Hardcover Case Wrap") ≠ none
    ∧ generate_cover_pdf subtitle w h 10 ("Paperback Saddle Stitch") ≠ none := by
  refine ⟨?_, ?_, ?_⟩
  · unfold generate_cover_pdf
    cases hsw : get_spine_width n b with
    | none => rfl
    | some sw =>
      have hcd : cover_dims b w h ((sw : Nat) : ℚ) = none := by
        unfold cover_dims
        rw [if_neg h1, if_neg h2]
      dsimp only
      rw [hcd]
  · have hsw : get_spine_width 100 ("Hardcover Case Wrap") = some 13 := by decide
    unfold generate_cover_pdf
    rw [hsw]
    dsimp only
    have hcd := hardcover_dims_formula w h ((13 : Nat) : ℚ)
    rw [hcd]
    simp
  · have hsw : get_spine_width 10 ("Paperback Saddle Stitch") = some 0 := by decide
    unfold generate_cover_pdf
    rw [hsw]
    dsimp only
    have hcd := (paperback_dims_formula w h ((0 : Nat) : ℚ)).1
    rw [hcd]
    simp

theorem cover_only_two_bindings_witness :
    generate_cover_pdf ("") 140 216 30 ("Paperback Perfect Bound") = none
    ∧ generate_cover_pdf ("") 140 216 100 ("Hardcover Case Wrap") ≠ none
    ∧ generate_cover_pdf ("") 140 216 10 ("Paperback Saddle Stitch") ≠ none :=
  cover_only_two_bindings ("Paperback Perfect Bound") (by decide) (by decide) (by decide)
    ("") 140 216 30

/- ===== Claims about the condition poller ===== -/

/-- C6 counterexample: with a poll interval of 600 ms that does not
divide the 5000 ms timeout, wait_for_any performs 5000 / 600 = 8 cycles
and returns None with a modelled elapsed time of 4800 ms, strictly
before the timeout has elapsed, refuting that None is returned exactly
at or after timeout_ms. -/
theorem wait_none_before_timeout :
    wait_for_any [((fun _ => false), "reset")] 600 5000 = none
    ∧ elapsed_on_none 600 5000 = 4800
    ∧ elapsed_on_none 600 5000 < 5000 := by
  refine ⟨?_, by decide, by decide⟩
  rfl

/-- C6 (amended): wait_for_any returns None only when every condition
was observed false at every performed polling cycle; on timeout it has
performed timeout_ms / poll_interval_ms cycles, so its modelled elapsed
time is (timeout_ms / poll_interval_ms) * poll_interval_ms, which never
exceeds timeout_ms and equals timeout_ms exactly when poll_interval_ms
divides timeout_ms, as it does at every call site of the program; for a
poll interval not dividing the timeout, None is returned strictly
before the timeout has elapsed. -/
theorem wait_none_only_when_unobserved (conds : List ((Nat → Bool) × String))
    (p t : Nat) (h : wait_for_any conds p t = none) :
    (∀ j, j < t / p → ∀ c ∈ conds, c.1 j = false)
    ∧ elapsed_on_none p t ≤ t
    ∧ (p ∣ t → elapsed_on_none p t = t) := by
  refine ⟨?_, Nat.div_mul_le_self t p, fun hd => Nat.div_mul_cancel hd⟩
  intro j hj c hc
  have hfn := (wait_go_none conds (t / p) 0).mp h j (Nat.zero_le j) (by omega)
  have hnc := List.find?_eq_none.mp hfn c hc
  simpa using hnc

theorem wait_none_only_when_unobserved_witness :
    (∀ j, j < 5000 / 500 → ∀ c ∈ [((fun _ => false), "reset")], c.1 j = false)
    ∧ elapsed_on_none 500 5000 ≤ 5000
    ∧ ((500 : Nat) ∣ 5000 → elapsed_on_none 500 5000 = 5000) :=
  wait_none_only_when_unobserved [((fun _ => false), "reset")] 500 5000 (by rfl)

/-- C7: in every polling cycle the conditions are checked in their
declared order: if nothing was true at any earlier cycle and, at cycle
i, the condition at index k is true while every earlier-declared
condition is false at that cycle, the returned label is the one of
index k — so of two conditions simultaneously true in the same cycle
the earlier-declared one wins. -/
theorem wait_first_declared_wins (conds : List ((Nat → Bool) × String))
    (p t i k : Nat) (hi : i < t / p)
    (hquiet : ∀ j, j < i → ∀ c ∈ conds, c.1 j = false)
    (hk : k < conds.length)
    (htrue : (conds.get ⟨k, hk⟩).1 i = true)
    (hfirst : ∀ m (hm : m < k), (conds.get ⟨m, Nat.lt_trans hm hk⟩).1 i = false) :
    wait_for_any conds p t = some (conds.get ⟨k, hk⟩).2 := by
  apply wait_go_found conds (t / p) 0 i (conds.get ⟨k, hk⟩) (Nat.zero_le i) (by omega)
  · intro m _ hmi
    rw [List.find?_eq_none]
    intro c hc
    simp [hquiet m hmi c hc]
  · exact find_first_of_earlier_false (fun c => c.1 i) conds k hk hfirst htrue

theorem wait_first_declared_wins_witness :
    wait_for_any [((fun _ => true), "success"), ((fun _ => true), "error")] 500 5000
      = some ((([((fun _ => true), "success"), ((fun _ => true), "error")] :
          List ((Nat → Bool) × String)).get ⟨0, by decide⟩).2) :=
  wait_first_declared_wins
    [((fun _ => true), "success"), ((fun _ => true), "error")] 500 5000 0 0
    (by decide)
    (fun j hj => absurd hj (Nat.not_lt_zero j))
    (by decide)
    rfl
    (fun m hm => absurd hm (Nat.not_lt_zero m))

/- ===== Claims about the state machine and the retry loop ===== -/

/-- Helper: whenever the terminal validation wait resolves to reset,
the page 2 run returns the retry signal. -/
theorem terminal_reset_gives_retry (e3 e4 : PollEnv)
    (h3 : wait_for_any (phase3_conds e3) 500 120000 = some ("reset")) :
    page2_terminal_phase e3 e4 = Page2Result.retry := by
  unfold page2_terminal_phase
  rw [h3]
  dsimp only
  rw [if_neg (by decide), if_neg (by decide), if_pos rfl]

/-- C1: in every run in which the upload has started and the reset
condition is subsequently observed (the validation wait or the terminal
wait resolves to reset), the run returns the retry-the-whole-submission
signal, which is distinct from ordinary failure and is forwarded
unchanged by process_pages_1_to_4; the caller restarts the entire
submission from the top, executes at most 3 total attempts, actually
starts a following attempt only after a retry signal while the budget
lasts, and never retries after any other outcome. -/
theorem upload_reset_retries (e1 e2 e3 e4 : PollEnv) (results : Nat → ProcResult)
    (hstart : wait_for_any (phase1_conds e1) 500 5000 = some ("upload_started"))
    (hreset : wait_for_any (phase2_conds e2) 500 5000 = some ("reset")
      ∨ wait_for_any (phase3_conds e3) 500 120000 = some ("reset")) :
    create_book_page2 e1 e2 e3 e4 = Page2Result.retry
    ∧ Page2Result.retry ≠ Page2Result.failed
    ∧ process_pages_1_to_4 (create_book_page2 e1 e2 e3 e4) = ProcResult.retry
    ∧ (main_run results).1 ≤ 3
    ∧ (∀ i, results i ≠ ProcResult.retry → (main_run results).1 ≤ i + 1)
    ∧ (∀ i, i + 2 ≤ 3 → (∀ j, j ≤ i → results j = ProcResult.retry) →
        i + 2 ≤ (main_run results).1) := by
  have hpage : create_book_page2 e1 e2 e3 e4 = Page2Result.retry := by
    unfold create_book_page2
    rw [hstart]
    dsimp only
    rw [if_pos rfl]
    rcases hreset with h2 | h3
    · rw [h2]
      dsimp only
      rw [if_neg (by decide), if_pos rfl]
    · cases h2 : wait_for_any (phase2_conds e2) 500 5000 with
      | none =>
        dsimp only
        exact terminal_reset_gives_retry e3 e4 h3
      | some s =>
        dsimp only
        rcases wait_for_any_label_mem (phase2_conds e2) 500 5000 s h2 with ⟨c, hc, hcd⟩
        simp only [phase2_conds, List.mem_cons, List.mem_singleton] at hc
        rcases hc with hc | hc | hfalse
        · rw [hc] at hcd
          dsimp only at hcd
          subst hcd
          rw [if_pos rfl]
          exact terminal_reset_gives_retry e3 e4 h3
        · rw [hc] at hcd
          dsimp only at hcd
          subst hcd
          rw [if_neg (by decide), if_pos rfl]
        · exact absurd hfalse (by simp)
  refine ⟨hpage, by simp, by rw [hpage]; rfl, ?_, ?_, ?_⟩
  · have hub := main_retry_loop_ub results 3 0
    simpa [main_run] using hub
  · intro i hi
    exact main_retry_loop_stop results i hi 3 0 (Nat.zero_le i)
  · intro i hbudget hall
    exact main_retry_loop_progress results i 3 0
      (fun j _ hj => hall j hj) (by omega)

def env_uploading : PollEnv := fun sel _ => sel == uploading_selector

def env_reset_button : PollEnv := fun sel _ => sel == upload_button_selector

def env_never : PollEnv := fun _ _ => false

theorem upload_reset_retries_witness :
    create_book_page2 env_uploading env_reset_button env_never env_never = Page2Result.retry
    ∧ Page2Result.retry ≠ Page2Result.failed
    ∧ process_pages_1_to_4
        (create_book_page2 env_uploading env_reset_button env_never env_never)
        = ProcResult.retry
    ∧ (main_run (fun _ => ProcResult.retry)).1 ≤ 3
    ∧ (∀ i, (fun _ => ProcResult.retry) i ≠ ProcResult.retry →
        (main_run (fun _ => ProcResult.retry)).1 ≤ i + 1)
    ∧ (∀ i, i + 2 ≤ 3 → (∀ j, j ≤ i → (fun _ => ProcResult.retry) j = ProcResult.retry) →
        i + 2 ≤ (main_run (fun _ => ProcResult.retry)).1) :=
  upload_reset_retries env_uploading env_reset_button env_never env_never
    (fun _ => ProcResult.retry) (by decide) (Or.inl (by decide))

/-- C8: if the upload has started, the validation wait did not resolve
to reset, and no terminal condition is observed within the long
120000 ms terminal wait, the run resolves to the unclear outcome and is
treated as a failure: it returns False, never success and never the
retry signal. -/
theorem upload_timeout_unclear_fails (e1 e2 e3 e4 : PollEnv)
    (hstart : wait_for_any (phase1_conds e1) 500 5000 = some ("upload_started"))
    (hnoreset : wait_for_any (phase2_conds e2) 500 5000 ≠ some ("reset"))
    (hterm : wait_for_any (phase3_conds e3) 500 120000 = none) :
    create_book_page2 e1 e2 e3 e4 = Page2Result.failed
    ∧ create_book_page2 e1 e2 e3 e4 ≠ Page2Result.ok
    ∧ create_book_page2 e1 e2 e3 e4 ≠ Page2Result.retry := by
  have hterm2 : page2_terminal_phase e3 e4 = Page2Result.failed := by
    unfold page2_terminal_phase
    rw [hterm]
  have hpage : create_book_page2 e1 e2 e3 e4 = Page2Result.failed := by
    unfold create_book_page2
    rw [hstart]
    dsimp only
    rw [if_pos rfl]
    cases h2 : wait_for_any (phase2_conds e2) 500 5000 with
    | none =>
      dsimp only
      exact hterm2
    | some s =>
      dsimp only
      rcases wait_for_any_label_mem (phase2_conds e2) 500 5000 s h2 with ⟨c, hc, hcd⟩
      simp only [phase2_conds, List.mem_cons, List.mem_singleton] at hc
      rcases hc with hc | hc | hfalse
      · rw [hc] at hcd
        dsimp only at hcd
        subst hcd
        rw [if_pos rfl]
        exact hterm2
      · rw [hc] at hcd
        dsimp only at hcd
        subst hcd
        exact absurd h2 hnoreset
      · exact absurd hfalse (by simp)
  refine ⟨hpage, ?_, ?_⟩
  · rw [hpage]
    simp
  · rw [hpage]
    simp

theorem upload_timeout_unclear_fails_witness :
    create_book_page2 env_uploading env_never env_never env_never = Page2Result.failed
    ∧ create_book_page2 env_uploading env_never env_never env_never ≠ Page2Result.ok
    ∧ create_book_page2 env_uploading env_never env_never env_never ≠ Page2Result.retry :=
  upload_timeout_unclear_fails env_uploading env_never env_never env_never
    (by decide) (by decide) (by decide)
